import Mathlib

/-!
Shallow embedding of the client-side Conversation Session Manager of
`src/frontend/src/App.tsx` (Gemini-medi).  The component state (React
`useState` hooks), the submit handler `handleSendMessage`, the image
attachment handlers, and the speech-recognition callbacks are modelled as
pure functions on an explicit state record.  Asynchronous settlement of the
`fetch` call is modelled as a separate settlement function applied to the
outcome of the request; the asynchronous `FileReader.onloadend` callback is
modelled as a separate event.  `Date` instants are modelled as abstract
`Nat` ticks; `toISOString` is injective on instants, so the history
projection keeps the tick.
-/

/-- The `role` field of a `Message`: `'user' | 'assistant'`. -/
inductive Role where
  | user
  | assistant
deriving DecidableEq, Repr

/-- One conversational turn (`interface Message` in App.tsx, lines 7-15). -/
structure Message where
  id : String
  role : Role
  content : String
  timestamp : Nat
  agent : Option String := none
  image : Option String := none
  requiresValidation : Option Bool := none
deriving DecidableEq, Repr

/-- The parsed response body (`interface ApiResponse`, lines 17-24). -/
structure ApiResponse where
  success : Bool
  response : String
  agent : Option String := none
  error : Option String := none
  requires_validation : Option Bool := none
deriving DecidableEq, Repr

/-- One entry of the `history` array in the outgoing JSON body
(App.tsx lines 152-157): each prior turn projected to role, content,
timestamp (sent as `m.timestamp.toISOString()`) and agent. -/
structure HistoryItem where
  role : Role
  content : String
  timestamp : Nat
  agent : Option String
deriving DecidableEq, Repr

/-- The JSON body of `POST /api/chat` (App.tsx lines 150-160). -/
structure ChatRequest where
  message : String
  history : List HistoryItem
  image : Option String
  agent_type : String
deriving DecidableEq, Repr

/-- The component state: the `useState` hooks of `App` (lines 37-53)
plus the file-input widget value that `removeImage` resets (line 110). -/
structure AppState where
  messages : List Message
  inputText : String
  selectedAgent : String
  isLoading : Bool
  selectedImage : Option String
  imagePreview : Option String
  fileInputValue : String
  isListening : Bool
deriving DecidableEq, Repr

/-- How the awaited `fetch` settles: `ok data` when the promise resolves
and `response.json()` parses, `transportError` when the fetch rejects or
the body is unparsable (the `catch` branch, lines 186-195). -/
inductive FetchOutcome where
  | ok (data : ApiResponse)
  | transportError
deriving DecidableEq, Repr

/-- JavaScript `a || b` on strings: the empty string is falsy. -/
def jsOr (a b : String) : String := if a = "" then b else a

/-- JavaScript `x || undefined` on a nullable string: `null` and `""`
both become `undefined`. -/
def jsOrUndef (x : Option String) : Option String :=
  match x with
  | some s => if s = "" then none else some s
  | none => none

/-- JavaScript `trim()`: strips leading and trailing whitespace.  Modelled
over the character list by structural recursion (the library's trim is
equivalent but defined by well-founded recursion on byte positions, which
blocks evaluation inside proofs). -/
def jsTrim (s : String) : String :=
  String.mk (((s.data.dropWhile Char.isWhitespace).reverse.dropWhile
    Char.isWhitespace).reverse)

/-- JavaScript `xs.slice(-n)`: the last `min n xs.length` elements. -/
def jsSliceLast (n : Nat) (xs : List α) : List α := xs.drop (xs.length - n)

/-- The content of the seeded welcome turn (App.tsx line 41). -/
def welcomeContent : String := "# Welcome to Integrated Medical AI System\n\nI combine three powerful AI systems to assist you:\n\n**💬 Medical Conversation Agent** - Answer medical questions with empathy and accuracy\n\n**💊 Prescription Parser** - Extract medication details from prescription images\n\n**🔬 Advanced Multi-Agent System** - Medical research, web search, and image analysis\n\n---\n\n**How can I help you today?**"

/-- The seeded assistant welcome turn (App.tsx lines 37-45); `t0` is the
page-load instant passed to `new Date()`. -/
def welcomeMessage (t0 : Nat) : Message :=
  { id := "1", role := .assistant, content := welcomeContent,
    timestamp := t0, agent := some "System" }

/-- Initial component state (the `useState` initial values, lines 37-53). -/
def initialState (t0 : Nat) : AppState :=
  { messages := [welcomeMessage t0], inputText := "", selectedAgent := "auto",
    isLoading := false, selectedImage := none, imagePreview := none,
    fileInputValue := "", isListening := false }

/-- `handleImageSelect` (lines 93-103): `e.target.files?.[0]` is the
optional picked file; when present it becomes the pending `selectedImage`
and a `FileReader` is started whose completion is modelled by
`readerOnLoadEnd`. -/
def handleImageSelect (s : AppState) (file : Option String) : AppState :=
  match file with
  | some f => { s with selectedImage := some f }
  | none => s

/-- The `reader.onloadend` callback (lines 98-100): stores the encoded
data-URL `result` as the preview/payload string. -/
def readerOnLoadEnd (s : AppState) (result : String) : AppState :=
  { s with imagePreview := some result }

/-- `removeImage` (lines 106-112): clears the raw file handle, the
encoded preview, and resets the file-input widget value. -/
def removeImage (s : AppState) : AppState :=
  { s with selectedImage := none, imagePreview := none, fileInputValue := "" }

/-- `recognitionRef.current.onresult` (lines 76-80): replaces the draft
text with the final transcript and ends the capture session. -/
def recognitionOnResult (s : AppState) (transcript : String) : AppState :=
  { s with inputText := transcript, isListening := false }

/-- `recognitionRef.current.onerror` (lines 82-84). -/
def recognitionOnError (s : AppState) : AppState :=
  { s with isListening := false }

/-- `recognitionRef.current.onend` (lines 86-88). -/
def recognitionOnEnd (s : AppState) : AppState :=
  { s with isListening := false }

/-- `toggleVoiceInput` (lines 115-123); the external start/stop calls on
the recognizer carry no component state. -/
def toggleVoiceInput (s : AppState) : AppState :=
  if s.isListening then { s with isListening := false }
  else { s with isListening := true }

/-- The guard of `handleSendMessage` (line 127):
`(!inputText.trim() && !selectedImage) || isLoading` aborts the submit. -/
def sendGuardBlocks (s : AppState) : Bool :=
  ((jsTrim s.inputText) == "" && s.selectedImage.isNone) || s.isLoading

/-- The send button `disabled` predicate (line 417):
`isLoading || (!inputText.trim() && !selectedImage)`. -/
def sendButtonDisabled (s : AppState) : Bool :=
  s.isLoading || ((jsTrim s.inputText) == "" && s.selectedImage.isNone)

/-- The user `Message` built from the current draft (lines 129-136):
content is `inputText.trim() || 'Analyze this image'`, image is
`imagePreview || undefined`. -/
def mkUserMessage (s : AppState) (id : String) (now : Nat) : Message :=
  { id := id, role := .user,
    content := jsOr (jsTrim s.inputText) "Analyze this image",
    timestamp := now,
    image := jsOrUndef s.imagePreview }

/-- The synchronous state updates of a guarded-through submit
(lines 138-142): optimistic append of the user turn, clear the draft text,
`removeImage()`, enter the sending state. -/
def submitState (s : AppState) (id : String) (now : Nat) : AppState :=
  { s with
    messages := s.messages ++ [mkUserMessage s id now],
    inputText := "",
    selectedImage := none, imagePreview := none, fileInputValue := "",
    isLoading := true }

/-- The JSON body of the issued request (lines 150-160).  `history` maps
over the `messages` closure captured before the optimistic append, i.e.
the pre-submit log; `image` is `currentImage`, the preview saved on
line 140 before `removeImage()` runs. -/
def submitRequest (s : AppState) (id : String) (now : Nat) : ChatRequest :=
  { message := (mkUserMessage s id now).content,
    history := (jsSliceLast 10 s.messages).map
      (fun m => { role := m.role, content := m.content,
                  timestamp := m.timestamp, agent := m.agent }),
    image := s.imagePreview,
    agent_type := s.selectedAgent }

/-- The synchronous phase of `handleSendMessage` (lines 126-161): `none`
when the guard aborts, otherwise the updated state paired with the issued
request. -/
def handleSendMessage_submit (s : AppState) (id : String) (now : Nat) :
    Option (AppState × ChatRequest) :=
  if sendGuardBlocks s then none
  else some (submitState s id now, submitRequest s id now)

/-- Settlement of the awaited request (lines 163-198): on `success` the
returned text/agent/validation flag become an assistant turn; on
`success: false` a `❌ Error:` turn embeds `data.error || 'Failed to
process request'` (JS `||`: an absent or empty error gives the fallback);
on transport failure a fixed fallback turn is appended.  The `finally`
block clears `isLoading` in every branch. -/
def handleSendMessage_settle (s : AppState) (outcome : FetchOutcome)
    (id : String) (now : Nat) : AppState :=
  match outcome with
  | .ok data =>
    if data.success then
      let assistantMessage : Message :=
        { id := id, role := .assistant, content := data.response,
          timestamp := now, agent := data.agent,
          requiresValidation := data.requires_validation }
      { s with messages := s.messages ++ [assistantMessage], isLoading := false }
    else
      let errorMessage : Message :=
        { id := id, role := .assistant,
          content := "❌ Error: " ++ jsOr (data.error.getD "") "Failed to process request",
          timestamp := now, agent := some "System" }
      { s with messages := s.messages ++ [errorMessage], isLoading := false }
  | .transportError =>
    let errorMessage : Message :=
      { id := id, role := .assistant,
        content := "❌ Failed to connect to the server. Please ensure the backend is running.",
        timestamp := now, agent := some "System" }
    { s with messages := s.messages ++ [errorMessage], isLoading := false }

/-- The discrete external events the component reacts to. -/
inductive Event where
  | setInput (t : String)
  | selectAgent (a : String)
  | imageSelect (f : Option String)
  | imageLoaded (dataUrl : String)
  | removeImg
  | voiceResult (t : String)
  | voiceFail
  | voiceEnded
  | toggleVoice
  | submitMsg (id : String) (now : Nat)
  | settleMsg (o : FetchOutcome) (id : String) (now : Nat)
deriving Repr

/-- One event-loop step: dispatches each event to its handler.  A
settlement event can only arrive while a request is outstanding
(`isLoading`), since the pipeline admits one in-flight exchange. -/
def step (s : AppState) (e : Event) : AppState :=
  match e with
  | .setInput t => { s with inputText := t }
  | .selectAgent a => { s with selectedAgent := a }
  | .imageSelect f => handleImageSelect s f
  | .imageLoaded d => readerOnLoadEnd s d
  | .removeImg => removeImage s
  | .voiceResult t => recognitionOnResult s t
  | .voiceFail => recognitionOnError s
  | .voiceEnded => recognitionOnEnd s
  | .toggleVoice => toggleVoiceInput s
  | .submitMsg id now =>
    match handleSendMessage_submit s id now with
    | some (s1, _) => s1
    | none => s
  | .settleMsg o id now =>
    if s.isLoading then handleSendMessage_settle s o id now else s

/-! ### Helper lemmas -/

theorem submit_eq_some {s : AppState} {id : String} {now : Nat}
    {s' : AppState} {req : ChatRequest}
    (h : handleSendMessage_submit s id now = some (s', req)) :
    sendGuardBlocks s = false ∧ s' = submitState s id now ∧
    req = submitRequest s id now := by
  unfold handleSendMessage_submit at h
  split at h
  · exact absurd h (by simp)
  · rename_i hg
    simp only [Option.some.injEq, Prod.mk.injEq] at h
    exact ⟨by simpa using hg, h.1.symm, h.2.symm⟩

theorem getLast?_append_single (l : List α) (a : α) :
    (l ++ [a]).getLast? = some a := by
  simp [List.getLast?_concat]

theorem settle_selectedAgent (s : AppState) (o : FetchOutcome)
    (id : String) (now : Nat) :
    (handleSendMessage_settle s o id now).selectedAgent = s.selectedAgent := by
  cases o with
  | ok data =>
    rcases Bool.eq_false_or_eq_true data.success with hb | hb <;>
      simp [handleSendMessage_settle, hb]
  | transportError => simp [handleSendMessage_settle]

theorem settle_messages_length (s : AppState) (o : FetchOutcome)
    (id : String) (now : Nat) :
    (handleSendMessage_settle s o id now).messages.length =
      s.messages.length + 1 := by
  cases o with
  | ok data =>
    rcases Bool.eq_false_or_eq_true data.success with hb | hb <;>
      simp [handleSendMessage_settle, hb]
  | transportError => simp [handleSendMessage_settle]

theorem settle_last_role (s : AppState) (o : FetchOutcome)
    (id : String) (now : Nat) :
    (handleSendMessage_settle s o id now).messages.getLast?.map Message.role =
      some Role.assistant := by
  cases o with
  | ok data =>
    rcases Bool.eq_false_or_eq_true data.success with hb | hb <;>
      simp [handleSendMessage_settle, hb, getLast?_append_single]
  | transportError => simp [handleSendMessage_settle, getLast?_append_single]

/-! ### Concrete example states used by witnesses -/

/-- A state with a non-empty draft, as right after typing into the box. -/
def exText : AppState := { initialState 0 with inputText := "hi" }

/-- A state whose log holds twelve prior turns and a non-empty draft. -/
def exLong : AppState :=
  { initialState 0 with
    messages := (List.range 12).map
      (fun i => { id := toString i, role := Role.user,
                  content := toString i, timestamp := i }),
    inputText := "hi" }

/-- A state with a whitespace-only draft and no attachment. -/
def exBlank : AppState := { initialState 0 with inputText := "   " }

/-! ### Claims -/

/-- C1: every settled submission (guard passed, request settled by success,
application-level failure, or transport failure) grows the Message Log by
exactly 2: one user turn appended at submit time and one assistant turn
appended at settlement, in every branch. -/
theorem C1_settled_exchange_appends_two (s : AppState) (id : String) (now : Nat)
    (s' : AppState) (req : ChatRequest)
    (o : FetchOutcome) (id2 : String) (now2 : Nat)
    (h : handleSendMessage_submit s id now = some (s', req)) :
    s'.messages.length = s.messages.length + 1 ∧
    s'.messages.getLast?.map Message.role = some Role.user ∧
    (handleSendMessage_settle s' o id2 now2).messages.length =
      s.messages.length + 2 ∧
    (handleSendMessage_settle s' o id2 now2).messages.getLast?.map
      Message.role = some Role.assistant := by
  obtain ⟨-, hs, -⟩ := submit_eq_some h
  subst hs
  refine ⟨by simp [submitState], ?_, ?_, settle_last_role ..⟩
  · simp [submitState, getLast?_append_single, mkUserMessage]
  · rw [settle_messages_length]
    simp [submitState]

/-- C1 witness: a concrete settled exchange from a one-turn log. -/
theorem C1_settled_exchange_appends_two_witness :
    handleSendMessage_submit exText "u1" 1 =
      some (submitState exText "u1" 1, submitRequest exText "u1" 1) ∧
    ((submitState exText "u1" 1).messages.length = exText.messages.length + 1 ∧
     (submitState exText "u1" 1).messages.getLast?.map Message.role =
       some Role.user ∧
     (handleSendMessage_settle (submitState exText "u1" 1) .transportError
       "a1" 2).messages.length = exText.messages.length + 2 ∧
     (handleSendMessage_settle (submitState exText "u1" 1) .transportError
       "a1" 2).messages.getLast?.map Message.role = some Role.assistant) :=
  ⟨by rfl, C1_settled_exchange_appends_two exText "u1" 1 _ _ .transportError
    "a1" 2 (by rfl)⟩

/-- C2: the `history` field of request N holds at most the 10 most recent
turns that existed in the Message Log immediately before the just-submitted
user turn was appended (so it excludes that user turn), in original
chronological order, each projected to role, content, timestamp and agent. -/
theorem C2_history_trailing_window (s : AppState) (id : String) (now : Nat)
    (s' : AppState) (req : ChatRequest)
    (h : handleSendMessage_submit s id now = some (s', req)) :
    req.history = (jsSliceLast 10 s.messages).map
      (fun m => { role := m.role, content := m.content,
                  timestamp := m.timestamp, agent := m.agent }) ∧
    req.history.length ≤ 10 ∧
    List.IsSuffix (jsSliceLast 10 s.messages) s.messages ∧
    s'.messages = s.messages ++ [mkUserMessage s id now] := by
  obtain ⟨-, hs, hr⟩ := submit_eq_some h
  subst hs; subst hr
  refine ⟨rfl, ?_, ?_, rfl⟩
  · simp only [submitRequest, List.length_map, jsSliceLast, List.length_drop]
    omega
  · exact List.drop_suffix _ _

/-- C2 witness: a submission on a twelve-turn log sends a ten-turn window. -/
theorem C2_history_trailing_window_witness :
    handleSendMessage_submit exLong "u1" 20 =
      some (submitState exLong "u1" 20, submitRequest exLong "u1" 20) ∧
    ((submitRequest exLong "u1" 20).history = (jsSliceLast 10 exLong.messages).map
      (fun m => { role := m.role, content := m.content,
                  timestamp := m.timestamp, agent := m.agent }) ∧
     (submitRequest exLong "u1" 20).history.length ≤ 10 ∧
     List.IsSuffix (jsSliceLast 10 exLong.messages) exLong.messages ∧
     (submitState exLong "u1" 20).messages =
       exLong.messages ++ [mkUserMessage exLong "u1" 20]) :=
  ⟨by rfl, C2_history_trailing_window exLong "u1" 20 _ _ (by rfl)⟩

/-- C3: submitting with a blank (empty or whitespace-only) draft and no
attached image, or while a request is already in flight, is a no-op: no
state change occurs and no request is issued. -/
theorem C3_blocked_submit_is_noop (s : AppState) (id : String) (now : Nat)
    (h : (jsTrim s.inputText = "" ∧ s.selectedImage = none) ∨
      s.isLoading = true) :
    handleSendMessage_submit s id now = none := by
  unfold handleSendMessage_submit
  have hg : sendGuardBlocks s = true := by
    unfold sendGuardBlocks
    rcases h with ⟨h1, h2⟩ | h1
    · simp [h1, h2]
    · simp [h1]
  simp [hg]

/-- C3 witness: a whitespace-only draft with no image is rejected. -/
theorem C3_blocked_submit_is_noop_witness :
    (jsTrim exBlank.inputText = "" ∧ exBlank.selectedImage = none) ∧
    handleSendMessage_submit exBlank "u1" 1 = none :=
  ⟨⟨by rfl, rfl⟩, C3_blocked_submit_is_noop exBlank "u1" 1
    (Or.inl ⟨by rfl, rfl⟩)⟩

/-- C4: settlement is total over the three outcomes; each branch appends
exactly one assistant turn (the returned text, agent label and validation
flag on success, a `❌ Error:` turn embedding the server error or its
generic fallback on application-level failure, the fixed
backend-unreachable turn on transport failure), returns the pipeline to
idle, and leaves the draft and agent selection usable. -/
theorem C4_settlement_branches (s : AppState) (o : FetchOutcome)
    (id : String) (now : Nat) :
    (handleSendMessage_settle s o id now).isLoading = false ∧
    (handleSendMessage_settle s o id now).messages.length =
      s.messages.length + 1 ∧
    (handleSendMessage_settle s o id now).messages.getLast?.map Message.role =
      some Role.assistant ∧
    (handleSendMessage_settle s o id now).messages.getLast?.map
        Message.content =
      some (match o with
        | .ok data =>
          if data.success then data.response
          else "❌ Error: " ++ jsOr (data.error.getD "")
            "Failed to process request"
        | .transportError =>
          "❌ Failed to connect to the server. Please ensure the backend is running.") ∧
    (handleSendMessage_settle s o id now).messages.getLast?.map
        Message.agent =
      some (match o with
        | .ok data => if data.success then data.agent else some "System"
        | .transportError => some "System") ∧
    (handleSendMessage_settle s o id now).messages.getLast?.map
        Message.requiresValidation =
      some (match o with
        | .ok data => if data.success then data.requires_validation else none
        | .transportError => none) ∧
    (handleSendMessage_settle s o id now).inputText = s.inputText ∧
    (handleSendMessage_settle s o id now).selectedAgent = s.selectedAgent := by
  cases o with
  | ok data =>
    rcases Bool.eq_false_or_eq_true data.success with hb | hb <;>
      simp [handleSendMessage_settle, hb, getLast?_append_single]
  | transportError =>
    simp [handleSendMessage_settle, getLast?_append_single]

/-- The state right after picking a file while its asynchronous encoding
is still pending: `selectedImage` is set, `imagePreview` is not yet. -/
def exImgPending : AppState := handleImageSelect (initialState 0) (some "scan.png")

/-- The same attachment after `reader.onloadend` delivered the data-URL. -/
def exImgLoaded : AppState :=
  readerOnLoadEnd exImgPending "data:image/png;base64,AAAA"

/-- C5 counterexample: with a blank draft and a freshly picked image whose
encoding has not completed, the send guard already passes (submission is
enabled by `selectedImage`, not by the encoded preview) and the issued
image-only request carries `image = null`, contradicting the claim that
such a request never carries null. -/
theorem C5_counterexample_image_only_null :
    jsTrim exImgPending.inputText = "" ∧
    exImgPending.selectedImage = some "scan.png" ∧
    exImgPending.imagePreview = none ∧
    sendButtonDisabled exImgPending = false ∧
    (handleSendMessage_submit exImgPending "u1" 1).map (fun p => p.2.image) =
      some none := by
  refine ⟨by rfl, rfl, rfl, by rfl, by rfl⟩

/-- C5 (amended): for image-only submissions, submission is enabled as
soon as a file is picked — before the asynchronous encoding completes —
and the issued request's `image` field is whatever preview encoding exists
at submit time: the encoded inline string when encoding has completed, and
null otherwise. -/
theorem C5_amended_image_field_is_preview (s : AppState) (f : String)
    (id : String) (now : Nat) (s' : AppState) (req : ChatRequest)
    (hL : s.isLoading = false)
    (h : handleSendMessage_submit s id now = some (s', req)) :
    sendButtonDisabled (handleImageSelect s (some f)) = false ∧
    req.image = s.imagePreview := by
  obtain ⟨-, -, hr⟩ := submit_eq_some h
  subst hr
  refine ⟨?_, rfl⟩
  simp [sendButtonDisabled, handleImageSelect, hL]

/-- C5 witness: a completed encoding travels in the image field. -/
theorem C5_amended_image_field_is_preview_witness :
    exImgLoaded.isLoading = false ∧
    handleSendMessage_submit exImgLoaded "u1" 1 =
      some (submitState exImgLoaded "u1" 1, submitRequest exImgLoaded "u1" 1) ∧
    (sendButtonDisabled (handleImageSelect exImgLoaded (some "scan.png")) =
      false ∧
     (submitRequest exImgLoaded "u1" 1).image = exImgLoaded.imagePreview) :=
  ⟨rfl, by rfl, C5_amended_image_field_is_preview exImgLoaded "scan.png"
    "u1" 1 _ _ rfl (by rfl)⟩

/-- C6: on every guard-passing submission the draft text and attached
image are cleared synchronously (already in the post-submit state, before
settlement), the pipeline enters sending, and the selected agent persists
unchanged through submit and settlement. -/
theorem C6_draft_cleared_agent_persists (s : AppState) (id : String)
    (now : Nat) (s' : AppState) (req : ChatRequest)
    (o : FetchOutcome) (id2 : String) (now2 : Nat)
    (h : handleSendMessage_submit s id now = some (s', req)) :
    s'.inputText = "" ∧ s'.selectedImage = none ∧ s'.imagePreview = none ∧
    s'.isLoading = true ∧
    s'.selectedAgent = s.selectedAgent ∧
    (handleSendMessage_settle s' o id2 now2).selectedAgent =
      s.selectedAgent := by
  obtain ⟨-, hs, -⟩ := submit_eq_some h
  subst hs
  refine ⟨rfl, rfl, rfl, rfl, ?_, ?_⟩
  · simp [submitState]
  · rw [settle_selectedAgent]
    simp [submitState]

/-- C6 witness: a concrete submission clears the draft and keeps the
agent selection across settlement. -/
theorem C6_draft_cleared_agent_persists_witness :
    handleSendMessage_submit exText "u1" 1 =
      some (submitState exText "u1" 1, submitRequest exText "u1" 1) ∧
    ((submitState exText "u1" 1).inputText = "" ∧
     (submitState exText "u1" 1).selectedImage = none ∧
     (submitState exText "u1" 1).imagePreview = none ∧
     (submitState exText "u1" 1).isLoading = true ∧
     (submitState exText "u1" 1).selectedAgent = exText.selectedAgent ∧
     (handleSendMessage_settle (submitState exText "u1" 1) .transportError
       "a1" 2).selectedAgent = exText.selectedAgent) :=
  ⟨by rfl, C6_draft_cleared_agent_persists exText "u1" 1 _ _ .transportError
    "a1" 2 (by rfl)⟩

/-- C7: the `message` field of every issued request equals the trimmed
draft text when that is non-empty, and the literal string
`Analyze this image` when the draft is blank (in which case the guard
forces an attached image). -/
theorem C7_message_field (s : AppState) (id : String) (now : Nat)
    (s' : AppState) (req : ChatRequest)
    (h : handleSendMessage_submit s id now = some (s', req)) :
    (jsTrim s.inputText ≠ "" → req.message = jsTrim s.inputText) ∧
    (jsTrim s.inputText = "" →
      s.selectedImage ≠ none ∧ req.message = "Analyze this image") := by
  obtain ⟨hg, -, hr⟩ := submit_eq_some h
  subst hr
  constructor
  · intro hne
    simp [submitRequest, mkUserMessage, jsOr, hne]
  · intro he
    refine ⟨?_, by simp [submitRequest, mkUserMessage, jsOr, he]⟩
    unfold sendGuardBlocks at hg
    simp only [he, beq_self_eq_true, Bool.true_and, Bool.or_eq_false_iff] at hg
    intro hn
    rw [hn] at hg
    simp at hg

/-- C7 witness: a concrete non-blank draft travels trimmed. -/
theorem C7_message_field_witness :
    handleSendMessage_submit exText "u1" 1 =
      some (submitState exText "u1" 1, submitRequest exText "u1" 1) ∧
    jsTrim exText.inputText ≠ "" ∧
    (submitRequest exText "u1" 1).message = jsTrim exText.inputText :=
  ⟨by rfl, by simp [exText, initialState, jsTrim],
   (C7_message_field exText "u1" 1 _ _ (by rfl)).1
     (by simp [exText, initialState, jsTrim])⟩

/-- C8: a successful final transcript replaces (never appends to) the
draft text and ends the capture session; a recognition error or natural
end-of-utterance returns capture to idle with the draft text unchanged. -/
theorem C8_voice_capture (s : AppState) (t : String) :
    (recognitionOnResult s t).inputText = t ∧
    (recognitionOnResult s t).isListening = false ∧
    (recognitionOnResult s t).messages = s.messages ∧
    (recognitionOnError s).inputText = s.inputText ∧
    (recognitionOnError s).isListening = false ∧
    (recognitionOnEnd s).inputText = s.inputText ∧
    (recognitionOnEnd s).isListening = false := by
  simp [recognitionOnResult, recognitionOnError, recognitionOnEnd]

/-- Scenario plumbing for C9: attach a first image and let its encoding
complete, then attach a second image and let its encoding complete. -/
def attachThenAttach (s : AppState) (fA fB : String)
    (enc : String → String) : AppState :=
  readerOnLoadEnd
    (handleImageSelect
      (readerOnLoadEnd (handleImageSelect s (some fA)) (enc fA)) (some fB))
    (enc fB)

/-- C9: attaching image A and then image B leaves exactly one attachment —
B — as both the pending file and the encoded preview/payload string;
removing it clears the raw handle and the encoded preview and resets the
file-selection widget value so the same file can be re-picked. -/
theorem C9_attachment_replacement (s : AppState) (fA fB : String)
    (enc : String → String) :
    (attachThenAttach s fA fB enc).selectedImage = some fB ∧
    (attachThenAttach s fA fB enc).imagePreview = some (enc fB) ∧
    (removeImage (attachThenAttach s fA fB enc)).selectedImage = none ∧
    (removeImage (attachThenAttach s fA fB enc)).imagePreview = none ∧
    (removeImage (attachThenAttach s fA fB enc)).fileInputValue = "" := by
  simp [attachThenAttach, handleImageSelect, readerOnLoadEnd, removeImage]

theorem step_messages_length_le (s : AppState) (e : Event) :
    s.messages.length ≤ (step s e).messages.length := by
  cases e with
  | setInput t => simp [step]
  | selectAgent a => simp [step]
  | imageSelect f => cases f <;> simp [step, handleImageSelect]
  | imageLoaded d => simp [step, readerOnLoadEnd]
  | removeImg => simp [step, removeImage]
  | voiceResult t => simp [step, recognitionOnResult]
  | voiceFail => simp [step, recognitionOnError]
  | voiceEnded => simp [step, recognitionOnEnd]
  | toggleVoice =>
    simp only [step, toggleVoiceInput]
    split <;> simp
  | submitMsg id now =>
    simp only [step]
    cases h : handleSendMessage_submit s id now with
    | none => simp
    | some p =>
      obtain ⟨s1, r⟩ := p
      obtain ⟨-, hs, -⟩ := submit_eq_some h
      subst hs
      simp [submitState]
  | settleMsg o id now =>
    simp only [step]
    split
    · rw [settle_messages_length]
      omega
    · exact Nat.le_refl _

theorem foldl_step_messages_length_le (evs : List Event) (s : AppState) :
    s.messages.length ≤ (evs.foldl step s).messages.length := by
  induction evs generalizing s with
  | nil => exact Nat.le_refl _
  | cons e es ih =>
    exact Nat.le_trans (step_messages_length_le s e) (ih (step s e))

/-- C10: the Message Log starts with exactly one seeded assistant welcome
turn labelled System, stays non-empty under every event sequence, and the
history of a request issued while the log still equals the seeded log
includes the welcome turn even though it belongs to no user exchange. -/
theorem C10_seeded_welcome_turn (t0 : Nat) (evs : List Event) (s : AppState)
    (id : String) (now : Nat) (s' : AppState) (req : ChatRequest)
    (hs : s.messages = (initialState t0).messages)
    (h : handleSendMessage_submit s id now = some (s', req)) :
    (initialState t0).messages = [welcomeMessage t0] ∧
    (welcomeMessage t0).role = Role.assistant ∧
    (welcomeMessage t0).agent = some "System" ∧
    (evs.foldl step (initialState t0)).messages ≠ [] ∧
    req.history = [{ role := Role.assistant, content := welcomeContent,
                     timestamp := t0, agent := some "System" }] := by
  obtain ⟨-, -, hr⟩ := submit_eq_some h
  subst hr
  refine ⟨rfl, rfl, rfl, ?_, ?_⟩
  · have h1 := foldl_step_messages_length_le evs (initialState t0)
    intro hnil
    rw [hnil] at h1
    simp [initialState] at h1
  · simp [submitRequest, hs, initialState, jsSliceLast, welcomeMessage]

/-- C10 witness: the very first request from the seeded log carries the
welcome turn as its whole history window. -/
theorem C10_seeded_welcome_turn_witness :
    exText.messages = (initialState 0).messages ∧
    handleSendMessage_submit exText "u1" 1 =
      some (submitState exText "u1" 1, submitRequest exText "u1" 1) ∧
    ((initialState 0).messages = [welcomeMessage 0] ∧
     (welcomeMessage 0).role = Role.assistant ∧
     (welcomeMessage 0).agent = some "System" ∧
     (([Event.setInput "hi"]).foldl step (initialState 0)).messages ≠ [] ∧
     (submitRequest exText "u1" 1).history =
       [{ role := Role.assistant, content := welcomeContent,
          timestamp := 0, agent := some "System" }]) :=
  ⟨rfl, by rfl, C10_seeded_welcome_turn 0 [Event.setInput "hi"] exText
    "u1" 1 _ _ rfl (by rfl)⟩
